import Mathlib

/-!
Shallow embedding of src/scripts/markitdown_worker.py.

The script, in source order:
 - line 1: from markitdown import MarkItDown, which raises ImportError when
   the library is missing;
 - line 8: sys.stderr = io.StringIO(), which redirects sys.stderr to an
   in-memory buffer, so nothing printed afterwards reaches the real
   standard error stream of the process;
 - lines 11 to 16: try to import markitdown; on ImportError print an
   informational message to sys.stderr and run pip install through
   subprocess.check_call, whose failure is not caught;
 - line 18: converter = MarkItDown();
 - lines 19 to 28: for each stdin line, strip it, call converter.convert on
   the stripped path; on success write the text content and then a null
   byte to stdout and flush; on any Exception print an error message to
   sys.stderr and continue.

The converter itself is external, so the model takes it as a parameter of
type Conv: for a path it yields the text content of the result or the text
of the raised exception. Strings are lists of characters; each stream is a
list. The field convCalls records the successive arguments handed to
converter.convert, and outBuf is the unflushed part of stdout.
-/

/-- Whitespace characters removed by the Python method str.strip with no
argument (the ASCII part, which is all the claims involve). -/
def pyIsSpace (c : Char) : Bool :=
  c = ' ' || c = '\t' || c = '\n' || c = '\r' || c = '\x0b' || c = '\x0c'

/-- Embedding of the Python expression line.strip(): drop leading and
trailing whitespace, keeping the middle verbatim. -/
def pyStrip (s : List Char) : List Char :=
  (((s.dropWhile pyIsSpace).reverse).dropWhile pyIsSpace).reverse

/-- Outcome of converter.convert(path): the text content of the result, or
the text of the raised exception. -/
abbrev Conv : Type := List Char → Except (List Char) (List Char)

/-- Embedding of the message built by the except handler at lines 27 to 28,
an f-string interpolating file_path and the exception text. -/
def errorMsg (p e : List Char) : List Char :=
  ("Error processing ".data ++ p) ++ (": ".data ++ e)

/-- Message printed at line 14 when the bootstrap import fails. -/
def installMsg : List Char := "markitdown module not found. Installing...".data

/-- Where sys.stderr currently points: the real standard error stream of
the process, or the io.StringIO buffer installed at line 8. -/
inductive StderrTarget where
  | real : StderrTarget
  | buffer : StderrTarget

/-- Observable state of the worker process. -/
structure WState where
  flushed : List Char
  outBuf : List Char
  errBuf : List (List Char)
  realStderr : List (List Char)
  target : StderrTarget
  convCalls : List (List Char)

/-- Embedding of print(msg, file=sys.stderr): the message goes to whatever
sys.stderr designates at that moment. -/
def printToStderr (st : WState) (msg : List Char) : WState :=
  match st.target with
  | StderrTarget.real => { st with realStderr := st.realStderr ++ [msg] }
  | StderrTarget.buffer => { st with errBuf := st.errBuf ++ [msg] }

/-- Embedding of one iteration of the loop at lines 19 to 28: strip the
line, call the converter on the stripped path; on success write the text
and a null byte to stdout and flush; on exception print the error message
to sys.stderr. -/
def processLine (c : Conv) (st : WState) (line : List Char) : WState :=
  let p := pyStrip line
  let st1 := { st with convCalls := st.convCalls ++ [p] }
  match c p with
  | Except.ok t =>
      { st1 with flushed := st1.flushed ++ st1.outBuf ++ t ++ ['\x00'], outBuf := [] }
  | Except.error e => printToStderr st1 (errorMsg p e)

/-- Embedding of the whole for-loop over the lines of standard input. -/
def runLoop (c : Conv) (st : WState) : List (List Char) → WState
  | [] => st
  | l :: ls => runLoop c (processLine c st l) ls

/-- Uncaught exceptions that terminate the process: ImportError from line 1,
and subprocess.CalledProcessError from the check_call at lines 15 to 16. -/
inductive Crash where
  | importError : Crash
  | calledProcessError : Crash

/-- Environment of a run: whether the import at line 1 succeeds, whether
the import at line 12 succeeds, and whether the pip subprocess succeeds. -/
structure Env where
  topImportOK : Bool
  bootImportOK : Bool
  installOK : Bool

/-- Outcome of a whole run: the uncaught exception if any, whether the
conversion loop was entered, whether the pip subprocess was invoked, and
the final observable state. -/
structure RunResult where
  crashed : Option Crash
  loopEntered : Bool
  pipCalled : Bool
  finalState : WState

/-- State at interpreter start: empty streams, sys.stderr still pointing at
the real standard error stream. -/
def initState : WState := ⟨[], [], [], [], StderrTarget.real, []⟩

/-- State right after line 8 has redirected sys.stderr to the buffer. -/
def loopState0 : WState := { initState with target := StderrTarget.buffer }

/-- Embedding of the whole script in source order: line 1 import, line 8
redirection, lines 11 to 16 bootstrap, then the loop. -/
def runProgram (env : Env) (c : Conv) (lines : List (List Char)) : RunResult :=
  if env.topImportOK then
    if env.bootImportOK then
      ⟨none, true, false, runLoop c loopState0 lines⟩
    else
      let st1 := printToStderr loopState0 installMsg
      if env.installOK then
        ⟨none, true, true, runLoop c st1 lines⟩
      else
        ⟨some Crash.calledProcessError, false, true, st1⟩
  else
    ⟨some Crash.importError, false, false, initState⟩

/-- Environment in which every external step succeeds. -/
def envReady : Env := ⟨true, true, true⟩

/-- Concrete converter used for witnesses: it fails on the path bad.xyz and
succeeds on every other path. -/
def convDemo : Conv := fun p =>
  if p = "bad.xyz".data then Except.error "boom".data
  else Except.ok ("T-".data ++ p)

/-- Error event of one line: the message the except handler prints when the
conversion of that line fails. -/
def errEvent (c : Conv) (line : List Char) : Option (List Char) :=
  match c (pyStrip line) with
  | Except.ok _ => none
  | Except.error e => some (errorMsg (pyStrip line) e)

/-- Success event of one line: the stdout bytes of a successful conversion,
the text content followed by one null byte. -/
def okBlob (c : Conv) (line : List Char) : Option (List Char) :=
  match c (pyStrip line) with
  | Except.ok t => some (t ++ ['\x00'])
  | Except.error _ => none

lemma processLine_ok (c : Conv) (st : WState) (line t : List Char)
    (h : c (pyStrip line) = Except.ok t) :
    processLine c st line =
      { st with flushed := st.flushed ++ st.outBuf ++ t ++ ['\x00'],
                outBuf := [],
                convCalls := st.convCalls ++ [pyStrip line] } := by
  simp [processLine, h]

lemma processLine_error (c : Conv) (st : WState) (line e : List Char)
    (h : c (pyStrip line) = Except.error e)
    (ht : st.target = StderrTarget.buffer) :
    processLine c st line =
      { st with errBuf := st.errBuf ++ [errorMsg (pyStrip line) e],
                convCalls := st.convCalls ++ [pyStrip line] } := by
  simp [processLine, printToStderr, h, ht]

lemma processLine_convCalls (c : Conv) (st : WState) (line : List Char) :
    (processLine c st line).convCalls = st.convCalls ++ [pyStrip line] := by
  cases hc : c (pyStrip line) with
  | ok t => simp [processLine, hc]
  | error e => cases htg : st.target <;> simp [processLine, printToStderr, hc, htg]

lemma runLoop_convCalls (c : Conv) (st : WState) (ls : List (List Char)) :
    (runLoop c st ls).convCalls = st.convCalls ++ ls.map pyStrip := by
  induction ls generalizing st with
  | nil => simp [runLoop]
  | cons l ls ih =>
    rw [runLoop, ih, processLine_convCalls]
    simp

lemma runLoop_state (c : Conv) (st : WState) (ls : List (List Char))
    (hb : st.outBuf = []) (ht : st.target = StderrTarget.buffer) :
    runLoop c st ls =
      { st with
        flushed := st.flushed ++ (ls.filterMap (okBlob c)).flatten,
        errBuf := st.errBuf ++ ls.filterMap (errEvent c),
        convCalls := st.convCalls ++ ls.map pyStrip } := by
  induction ls generalizing st with
  | nil => simp [runLoop]
  | cons l ls ih =>
    cases hc : c (pyStrip l) with
    | ok t =>
      rw [runLoop, processLine_ok c st l t hc,
          ih ⟨st.flushed ++ st.outBuf ++ t ++ ['\x00'], [], st.errBuf,
              st.realStderr, st.target, st.convCalls ++ [pyStrip l]⟩ rfl ht]
      simp [okBlob, errEvent, hc, hb]
    | error e =>
      rw [runLoop, processLine_error c st l e hc ht,
          ih ⟨st.flushed, st.outBuf, st.errBuf ++ [errorMsg (pyStrip l) e],
              st.realStderr, st.target, st.convCalls ++ [pyStrip l]⟩ hb ht]
      simp [okBlob, errEvent, hc]

lemma all_takeWhile_space (p : Char → Bool) (l : List Char) :
    (l.takeWhile p).all p = true := by
  induction l with
  | nil => rfl
  | cons a l ih =>
    cases h : p a with
    | false => simp [List.takeWhile_cons, h]
    | true => simp [List.takeWhile_cons, h, ih]

lemma pyStrip_decomp (l : List Char) :
    ∃ pre suf, l = pre ++ pyStrip l ++ suf ∧
      pre.all pyIsSpace = true ∧ suf.all pyIsSpace = true := by
  refine ⟨l.takeWhile pyIsSpace,
          ((l.dropWhile pyIsSpace).reverse.takeWhile pyIsSpace).reverse,
          ?_, all_takeWhile_space pyIsSpace l, ?_⟩
  · have h2 := List.takeWhile_append_dropWhile
      (p := pyIsSpace) (l := (l.dropWhile pyIsSpace).reverse)
    have h3 := congrArg List.reverse h2
    simp only [List.reverse_append, List.reverse_reverse] at h3
    conv_lhs => rw [← List.takeWhile_append_dropWhile (p := pyIsSpace) (l := l)]
    rw [← h3]
    simp [pyStrip]
  · rw [List.all_reverse]
    exact all_takeWhile_space pyIsSpace _

lemma pyStrip_eq_nil_of_all (l : List Char) (h : l.all pyIsSpace = true) :
    pyStrip l = [] := by
  have h1 : l.dropWhile pyIsSpace = [] := by
    rw [List.dropWhile_eq_nil_iff]
    intro x hx
    exact List.all_eq_true.mp h x hx
  simp [pyStrip, h1]

lemma processLine_one_unit (c : Conv) (st : WState) (line : List Char)
    (hb : st.outBuf = []) (ht : st.target = StderrTarget.buffer) :
    (∃ t, c (pyStrip line) = Except.ok t ∧
        (processLine c st line).flushed = st.flushed ++ (t ++ ['\x00']) ∧
        (processLine c st line).errBuf = st.errBuf) ∨
    (∃ e, c (pyStrip line) = Except.error e ∧
        (processLine c st line).flushed = st.flushed ∧
        (processLine c st line).errBuf
          = st.errBuf ++ [errorMsg (pyStrip line) e]) := by
  cases hc : c (pyStrip line) with
  | ok t =>
    refine Or.inl ⟨t, rfl, ?_, ?_⟩
    · rw [processLine_ok c st line t hc]; simp [hb]
    · rw [processLine_ok c st line t hc]
  | error e =>
    refine Or.inr ⟨e, rfl, ?_, ?_⟩
    · rw [processLine_error c st line e hc ht]
    · rw [processLine_error c st line e hc ht]

lemma okBlob_of_forall (c : Conv) (lines texts : List (List Char))
    (h : List.Forall₂ (fun l t => c (pyStrip l) = Except.ok t) lines texts) :
    lines.filterMap (okBlob c) = texts.map (fun t => t ++ ['\x00']) := by
  induction h with
  | nil => simp
  | cons h1 h2 ih => simp [List.filterMap_cons, okBlob, h1, ih]

/-- C1 counterexample: the claim as stated is false. There is a run with a
failing line after which the real standard error stream of the process is
empty, so no message naming the path and the exception text ever reached
it: line 8 of the script had already replaced sys.stderr by an in-memory
io.StringIO buffer. -/
theorem C1_counterexample :
    ¬ (∀ (c : Conv) (lines : List (List Char)) (l e : List Char),
        l ∈ lines → c (pyStrip l) = Except.error e →
        ∃ m ∈ (runProgram envReady c lines).finalState.realStderr,
          pyStrip l <:+: m ∧ e <:+: m) := by
  intro h
  obtain ⟨m, hm, -⟩ :=
    h convDemo ["bad.xyz".data] "bad.xyz".data "boom".data (by simp) rfl
  have hempty :
      (runProgram envReady convDemo ["bad.xyz".data]).finalState.realStderr
        = [] := rfl
  rw [hempty] at hm
  exact (List.not_mem_nil m) hm

/-- C1 (amended): for every input line whose conversion raises an exception,
a human-readable message containing the stripped path and the exception text
is appended to the in-memory buffer that line 8 installed in place of
sys.stderr, while the real standard error stream of the process stays
empty. -/
theorem C1_message_goes_to_buffer (c : Conv) (lines : List (List Char))
    (l e : List Char) (hl : l ∈ lines)
    (he : c (pyStrip l) = Except.error e) :
    (∃ m ∈ (runProgram envReady c lines).finalState.errBuf,
        pyStrip l <:+: m ∧ e <:+: m) ∧
    (runProgram envReady c lines).finalState.realStderr = [] := by
  have hrun : (runProgram envReady c lines).finalState
      = runLoop c loopState0 lines := rfl
  rw [hrun, runLoop_state c loopState0 lines rfl rfl]
  refine ⟨⟨errorMsg (pyStrip l) e, ?_, ?_, ?_⟩, rfl⟩
  · show errorMsg (pyStrip l) e ∈ loopState0.errBuf ++ lines.filterMap (errEvent c)
    refine List.mem_append_right _ ?_
    exact List.mem_filterMap.mpr ⟨l, hl, by simp [errEvent, he]⟩
  · exact ⟨"Error processing ".data, ": ".data ++ e, by simp [errorMsg]⟩
  · exact ⟨"Error processing ".data ++ pyStrip l ++ ": ".data, [],
      by simp [errorMsg]⟩

/-- C1 witness: a concrete run in which the one line fails, the buffer holds
a message naming the path and the exception text, and the real standard
error stream is empty. -/
theorem C1_message_goes_to_buffer_witness :
    (∃ m ∈ (runProgram envReady convDemo ["bad.xyz".data]).finalState.errBuf,
        pyStrip "bad.xyz".data <:+: m ∧ "boom".data <:+: m) ∧
    (runProgram envReady convDemo ["bad.xyz".data]).finalState.realStderr
      = [] :=
  C1_message_goes_to_buffer convDemo ["bad.xyz".data] "bad.xyz".data
    "boom".data (by simp) rfl

/-- C2: with the conversion library missing, the import on line 1 raises
ImportError before the bootstrap on lines 11 to 16 ever runs: the process
crashes, pip is never invoked and the conversion loop is never entered,
contrary to the documented install-then-proceed behavior. -/
theorem C2_missing_library_crashes_before_bootstrap :
    (runProgram ⟨false, false, true⟩ convDemo ["a.txt".data]).crashed
        = some Crash.importError ∧
    (runProgram ⟨false, false, true⟩ convDemo ["a.txt".data]).pipCalled
        = false ∧
    (runProgram ⟨false, false, true⟩ convDemo ["a.txt".data]).loopEntered
        = false :=
  ⟨rfl, rfl, rfl⟩

/-- C3: when the conversion of a line succeeds, processing that line writes
exactly the converted text followed by a single null byte to standard
output, and leaves the stdout buffer empty, so everything written for the
item has been flushed. -/
theorem C3_success_blob_flushed (c : Conv) (st : WState) (line t : List Char)
    (h : c (pyStrip line) = Except.ok t) (hb : st.outBuf = []) :
    (processLine c st line).flushed = st.flushed ++ (t ++ ['\x00']) ∧
    (processLine c st line).outBuf = [] := by
  rw [processLine_ok c st line t h]
  constructor
  · simp [hb]
  · rfl

/-- C3 witness: a concrete successful line appends its text plus one null
byte to the flushed stream and leaves the buffer empty. -/
theorem C3_success_blob_flushed_witness :
    (processLine convDemo loopState0 " a.txt\n".data).flushed
       = loopState0.flushed ++ (("T-".data ++ "a.txt".data) ++ ['\x00']) ∧
    (processLine convDemo loopState0 " a.txt\n".data).outBuf = [] :=
  C3_success_blob_flushed convDemo loopState0 " a.txt\n".data
    ("T-".data ++ "a.txt".data) rfl rfl

/-- C4: a conversion failure on one line does not terminate the loop: when
the first line fails, the converter is nevertheless invoked on that line
and on every subsequent line, in order, until end of input. -/
theorem C4_failure_does_not_stop_loop (c : Conv) (st : WState)
    (l e : List Char) (rest : List (List Char))
    (h : c (pyStrip l) = Except.error e) :
    (runLoop c st (l :: rest)).convCalls
      = st.convCalls ++ (pyStrip l :: rest.map pyStrip) := by
  rw [runLoop_convCalls]
  simp

/-- C4 witness: with a failing first line and one more line after it, both
lines reach the converter, in order. -/
theorem C4_failure_does_not_stop_loop_witness :
    (runLoop convDemo loopState0 ["bad.xyz".data, "a.txt".data]).convCalls
      = loopState0.convCalls
          ++ (pyStrip "bad.xyz".data :: (["a.txt".data].map pyStrip)) :=
  C4_failure_does_not_stop_loop convDemo loopState0 "bad.xyz".data
    "boom".data ["a.txt".data] rfl

/-- C5: when every input line converts successfully, the flushed standard
output is exactly the concatenation, in input order, of one blob per line:
the text of that line followed by a null byte. -/
theorem C5_one_blob_per_line_in_order (c : Conv)
    (lines texts : List (List Char))
    (h : List.Forall₂ (fun l t => c (pyStrip l) = Except.ok t) lines texts) :
    (runProgram envReady c lines).finalState.flushed
      = (texts.map (fun t => t ++ ['\x00'])).flatten := by
  have hrun : (runProgram envReady c lines).finalState
      = runLoop c loopState0 lines := rfl
  rw [hrun, runLoop_state c loopState0 lines rfl rfl]
  show loopState0.flushed ++ (lines.filterMap (okBlob c)).flatten = _
  rw [okBlob_of_forall c lines texts h]
  rfl

/-- C5 witness: two convertible lines yield exactly their two blobs in input
order. -/
theorem C5_one_blob_per_line_in_order_witness :
    (runProgram envReady convDemo ["a.txt".data, "b.pdf".data]).finalState.flushed
      = ([("T-".data ++ "a.txt".data), ("T-".data ++ "b.pdf".data)].map
          (fun t => t ++ ['\x00'])).flatten :=
  C5_one_blob_per_line_in_order convDemo ["a.txt".data, "b.pdf".data]
    [("T-".data ++ "a.txt".data), ("T-".data ++ "b.pdf".data)]
    (List.Forall₂.cons rfl (List.Forall₂.cons rfl List.Forall₂.nil))

/-- C6: when the conversion of a line fails, nothing at all is written to
standard output for it: both the flushed stream and the unflushed buffer
are unchanged. -/
theorem C6_failure_writes_no_stdout (c : Conv) (st : WState)
    (line e : List Char) (h : c (pyStrip line) = Except.error e) :
    (processLine c st line).flushed = st.flushed ∧
    (processLine c st line).outBuf = st.outBuf := by
  cases htg : st.target with
  | real => simp [processLine, printToStderr, h, htg]
  | buffer => simp [processLine, printToStderr, h, htg]

/-- C6 witness: a concrete failing line leaves both stdout components
unchanged. -/
theorem C6_failure_writes_no_stdout_witness :
    (processLine convDemo loopState0 "bad.xyz".data).flushed
        = loopState0.flushed ∧
    (processLine convDemo loopState0 "bad.xyz".data).outBuf
        = loopState0.outBuf :=
  C6_failure_writes_no_stdout convDemo loopState0 "bad.xyz".data
    "boom".data rfl

/-- C7: every line produces exactly one output unit: either the conversion
succeeds and exactly one null-terminated blob is appended to standard
output with the error buffer untouched, or it fails and exactly one error
message is appended to the error stream with standard output untouched;
the two cases are mutually exclusive. -/
theorem C7_exactly_one_output_unit (c : Conv) (st : WState)
    (line : List Char) (hb : st.outBuf = [])
    (ht : st.target = StderrTarget.buffer) :
    (∃ t, c (pyStrip line) = Except.ok t ∧
        (processLine c st line).flushed = st.flushed ++ (t ++ ['\x00']) ∧
        (processLine c st line).errBuf = st.errBuf) ∨
    (∃ e, c (pyStrip line) = Except.error e ∧
        (processLine c st line).flushed = st.flushed ∧
        (processLine c st line).errBuf
          = st.errBuf ++ [errorMsg (pyStrip line) e]) :=
  processLine_one_unit c st line hb ht

/-- C7 witness: the disjunction at a concrete convertible line. -/
theorem C7_exactly_one_output_unit_witness :
    (∃ t, convDemo (pyStrip "a.txt".data) = Except.ok t ∧
        (processLine convDemo loopState0 "a.txt".data).flushed
          = loopState0.flushed ++ (t ++ ['\x00']) ∧
        (processLine convDemo loopState0 "a.txt".data).errBuf
          = loopState0.errBuf) ∨
    (∃ e, convDemo (pyStrip "a.txt".data) = Except.error e ∧
        (processLine convDemo loopState0 "a.txt".data).flushed
          = loopState0.flushed ∧
        (processLine convDemo loopState0 "a.txt".data).errBuf
          = loopState0.errBuf ++ [errorMsg (pyStrip "a.txt".data) e]) :=
  C7_exactly_one_output_unit convDemo loopState0 "a.txt".data rfl rfl

/-- C8: the path handed to the converter for a line is exactly the line
with surrounding whitespace removed, and nothing else: the line decomposes
as a whitespace prefix, the verbatim passed path, and a whitespace
suffix. -/
theorem C8_strip_only_no_other_transformation (c : Conv) (st : WState)
    (lines : List (List Char)) (l : List Char) (hl : l ∈ lines) :
    pyStrip l ∈ (runLoop c st lines).convCalls ∧
    ∃ pre suf, l = pre ++ pyStrip l ++ suf ∧
      pre.all pyIsSpace = true ∧ suf.all pyIsSpace = true := by
  constructor
  · rw [runLoop_convCalls]
    exact List.mem_append_right _ (List.mem_map_of_mem pyStrip hl)
  · exact pyStrip_decomp l

/-- C8 witness: a concrete padded line reaches the converter stripped, and
decomposes into whitespace, stripped path, whitespace. -/
theorem C8_strip_only_no_other_transformation_witness :
    pyStrip " a.txt ".data
        ∈ (runLoop convDemo loopState0 [" a.txt ".data]).convCalls ∧
    ∃ pre suf, " a.txt ".data = pre ++ pyStrip " a.txt ".data ++ suf ∧
      pre.all pyIsSpace = true ∧ suf.all pyIsSpace = true :=
  C8_strip_only_no_other_transformation convDemo loopState0
    [" a.txt ".data] " a.txt ".data (by simp)

/-- C9: when the bootstrap import fails and the pip subprocess fails too,
the resulting exception is caught nowhere: the run ends crashed with
CalledProcessError, pip was invoked, and the conversion loop was never
entered. -/
theorem C9_install_failure_propagates (c : Conv) (lines : List (List Char)) :
    (runProgram ⟨true, false, false⟩ c lines).crashed
        = some Crash.calledProcessError ∧
    (runProgram ⟨true, false, false⟩ c lines).pipCalled = true ∧
    (runProgram ⟨true, false, false⟩ c lines).loopEntered = false :=
  ⟨rfl, rfl, rfl⟩

/-- C10: a line consisting only of whitespace is not skipped: the converter
is invoked with the empty path, and the line still yields exactly one
output unit, a blob on success or an error message on failure. -/
theorem C10_blank_line_still_processed (c : Conv) (st : WState)
    (line : List Char) (hws : line.all pyIsSpace = true)
    (hb : st.outBuf = []) (ht : st.target = StderrTarget.buffer) :
    (processLine c st line).convCalls = st.convCalls ++ [[]] ∧
    ((∃ t, c [] = Except.ok t ∧
        (processLine c st line).flushed = st.flushed ++ (t ++ ['\x00']) ∧
        (processLine c st line).errBuf = st.errBuf) ∨
     (∃ e, c [] = Except.error e ∧
        (processLine c st line).flushed = st.flushed ∧
        (processLine c st line).errBuf
          = st.errBuf ++ [errorMsg [] e])) := by
  have hnil : pyStrip line = [] := pyStrip_eq_nil_of_all line hws
  constructor
  · rw [processLine_convCalls, hnil]
  · have h := processLine_one_unit c st line hb ht
    rw [hnil] at h
    exact h

/-- C10 witness: a whitespace-only concrete line reaches the converter as
the empty path and yields one output unit. -/
theorem C10_blank_line_still_processed_witness :
    (processLine convDemo loopState0 " \n".data).convCalls
        = loopState0.convCalls ++ [[]] ∧
    ((∃ t, convDemo [] = Except.ok t ∧
        (processLine convDemo loopState0 " \n".data).flushed
          = loopState0.flushed ++ (t ++ ['\x00']) ∧
        (processLine convDemo loopState0 " \n".data).errBuf
          = loopState0.errBuf) ∨
     (∃ e, convDemo [] = Except.error e ∧
        (processLine convDemo loopState0 " \n".data).flushed
          = loopState0.flushed ∧
        (processLine convDemo loopState0 " \n".data).errBuf
          = loopState0.errBuf ++ [errorMsg [] e])) :=
  C10_blank_line_still_processed convDemo loopState0 " \n".data rfl rfl rfl
